import Mathlib

/-!
Verification of the faux-python config-expression language
(`custom_components/faux_python_scripting`): `fython_parser.py` (lexer,
classifier, parser) and `fython_runner.py` (stack-machine evaluator).

Modelling conventions:
* Python strings are modelled as `String` / `List Char`; `str.isalpha` and
  `str.isdigit` are modelled by the ASCII `Char.isAlpha` / `Char.isDigit`
  (the scripts of interest are ASCII).
* Every failure is an `Except.error` carrying a constructor of `Err`.  Raise
  sites written against defined exception classes keep descriptive
  constructors; raise sites written against the undefined names
  `RuntimeException` / `InvalidSyntaxException` fail in Python with a
  `NameError` naming the undefined identifier and are modelled as
  `Err.nameError` of that identifier; failures the interpreter itself
  produces (out-of-range indexing, a missing attribute, an unsupported
  operand of `in`) are `indexError`, `attributeError`, `typeError`.
* Numeric values are modelled as `Int`.  The lexer emits `.` as its own
  single-character token (it is in `PUNCTUATION`), so no token reaching
  `float(...)` can contain a decimal point: every numeric literal of the
  language denotes an integer.  Python float semantics beyond the integers
  are outside this embedding.
* The source's parser and evaluator recurse through mutable indices; they are
  modelled as functions over the remaining token/instruction list, with a
  fuel parameter making the recursion structural (the source's catch-all
  string-literal branch does not advance its index, so the source parser can
  genuinely fail to terminate; running out of fuel is `Err.fuel`).
-/

/-- Failure outcomes.  One constructor per distinct failure the source can
produce: the raise sites through defined exception classes
(`illegalChar`, `unrecognizedSymbol`, `invalidNode`), the raises written
against an undefined exception name — in Python a `NameError` naming that
identifier — as `nameError`, the interpreter-level failures of the buggy
spots (`indexError`, `attributeError`, `typeError`, `keyError`,
`valueError`, `zeroDivision`), and `fuel` for exhausted fuel in the fuelled
recursions.  `expectedOpenParen`, `unterminatedQuote` and `stackImbalance`
are failures the spec describes but no raise site of the code can produce;
they occur only in statements contrasting the described failure with the
code's actual one. -/
inductive Err where
  | illegalChar (c : Char)
  | unrecognizedSymbol
  | expectedOpenParen
  | unterminatedQuote
  | stackImbalance
  | indexError
  | attributeError
  | typeError
  | keyError
  | valueError
  | zeroDivision
  | invalidNode
  | nameError (undefined : String)
  | fuel
deriving DecidableEq

/-- SymbolType of `fython_parser.py` (class `SymbolType`). -/
inductive SymbolType where
  | Punctuation
  | Value
  | Name
  | Whitespace_spacing
  | Whitespace_separator
  | LineBreak
  | MathOperation
  | Keyword
deriving DecidableEq

/-- The `Symbol` namedtuple of `fython_parser.py`:
`namedtuple("Symbol", "word type file_index line_index pos_index")`.  These
five fields are its only attributes.  (Named `Symbol'` because `Symbol` is
taken by the ambient library.) -/
structure Symbol' where
  word : String
  type : SymbolType
  file_index : Nat
  line_index : Nat
  pos_index : Nat

/-- Runtime values: Python floats (here: the integers the language can
produce), strings, `None`, and the nested string-keyed dicts of the
lookup context. -/
inductive Value where
  | num (n : Int)
  | str (s : String)
  | none
  | dict (entries : List (String × Value))

/-- Instruction nodes, the dicts `{"type": ..., "value": ...}` built by
`_parse_node`: `var` literals, `arithmatic` operators, `func` calls with
their argument sub-programs, and `punc` punctuation markers. -/
inductive Node where
  | var (v : Value)
  | arith (op : String)
  | func (name : String) (args : List (List Node))
  | punc (s : String)

/-! ## Character classes and helpers (`fython_parser.py` module constants) -/

/-- `VAR_KW` of `fython_parser.py`. -/
def VAR_KW : List String := ["def", "if", "else", "elif", "and", "or", "not", "in", "for"]

/-- `MATH_KW = "+-*/="` of `fython_parser.py`. -/
def MATH_STR : String := "+-*/="

/-- `PUNCTUATION` of `fython_parser.py`. -/
def PUNCT_STR : String := "(),:[].\x7d\x7b\"'#"

/-- `WHITE_SPACE = "\t "` as a character list. -/
def WHITE_CHARS : List Char := ['\t', ' ']

def MATH_CHARS : List Char := MATH_STR.data

def PUNCT_CHARS : List Char := PUNCT_STR.data

/-- Python `char.isalpha() or char.isdigit() or char in WORD_CHAR`. -/
def isWordChar (c : Char) : Bool := c.isAlpha || c.isDigit || c == '_'

/-- Boolean list-prefix test on characters. -/
def isPrefixB : List Char → List Char → Bool
  | [], _ => true
  | _ :: _, [] => false
  | a :: as, b :: bs => a == b && isPrefixB as bs

/-- Does `n` occur as a contiguous sublist of the second list? -/
def subListAt : List Char → List Char → Bool
  | n, [] => n.isEmpty
  | n, hay@(_ :: t) => isPrefixB n hay || subListAt n t

/-- Python's `needle in hay` on two strings: substring containment. -/
def strContains (needle hay : String) : Bool := subListAt needle.data hay.data

/-- Python `s.split(sep)` for a single-character separator, on char lists. -/
def splitOnCharAux (sep : Char) : List Char → List (List Char)
  | [] => [[]]
  | c :: rest =>
    let r := splitOnCharAux sep rest
    if c == sep then [] :: r
    else
      match r with
      | [] => [[c]]
      | g :: gs => (c :: g) :: gs

/-- Python `s.split(sep)` producing strings. -/
def pySplit (sep : Char) (s : String) : List String :=
  (splitOnCharAux sep s.data).map (fun l => String.mk l)

/-! ## Lexer: `decompose_script` (`fython_parser.py`) -/

/-- Body of the `while char_idx < len(script)` loop of `decompose_script`,
over the word buffer and the remaining characters.  The inner
`while script[char_idx + 1] == char` whitespace-aggregation loop is the
`takeWhile`/`dropWhile` pair.  Tokens are emitted in front of the recursive
result instead of appended to a growing `word_list`; the emitted sequence is
the same.  After appending the aggregated whitespace run to the token list
the source does not clear `word_buffer`, which still holds the run; the
recursion therefore continues with the run as the buffer, so the run is
re-emitted by the next flush (or glued onto the next word).  The fuel is
spent one unit per outer-loop iteration; since every iteration consumes at
least one character, `length + 1` fuel always suffices. -/
def decomposeAux : Nat → List Char → List Char → Except Err (List (List Char))
  | 0, _, _ => .error .fuel
  | _ + 1, buf, [] => .ok (if buf.isEmpty then [] else [buf])
  | fuel + 1, buf, c :: rest =>
    if isWordChar c then
      decomposeAux fuel (buf ++ [c]) rest
    else if c ∈ MATH_CHARS ∨ c ∈ PUNCT_CHARS ∨ c = '\n' then
      (decomposeAux fuel [] rest).map
        (fun l => (if buf.isEmpty then [] else [buf]) ++ [[c]] ++ l)
    else if c ∈ WHITE_CHARS then
      (decomposeAux fuel (c :: rest.takeWhile (fun x => x == c))
          (rest.dropWhile (fun x => x == c))).map
        (fun l => (if buf.isEmpty then [] else [buf])
          ++ [c :: rest.takeWhile (fun x => x == c)] ++ l)
    else .error (.illegalChar c)

/-- `decompose_script(script)`: raw script text to the flat token list
(tokens as char lists). -/
def decompose_script (s : List Char) : Except Err (List (List Char)) :=
  decomposeAux (s.length + 1) [] s

/-- C2 (code bug).  The round trip fails on the source: the lexer's
whitespace branch appends the aggregated run to the token list but never
clears the word buffer, so the run is re-emitted or glued onto the next
word.  Lexing `a b` yields the tokens `a`, ` `, ` b`, whose concatenation is
`a  b`, not the input. -/
theorem decompose_script_round_trip_failure :
    decompose_script "a b".data = .ok [['a'], [' '], [' ', 'b']] ∧
      [['a'], [' '], [' ', 'b']].flatten ≠ "a b".data :=
  ⟨rfl, by decide⟩

/-- C3 (code bug).  Lexing two spaces followed by a tab yields four tokens,
not the claimed two: the whitespace run retained in the word buffer is
flushed again in front of the next token, and again at end of input, so the
source produces the two-space token twice and the one-tab token twice. -/
theorem decompose_script_whitespace_duplication :
    decompose_script "  \t".data =
        .ok [[' ', ' '], [' ', ' '], ['\t'], ['\t']] ∧
      decompose_script "  \t".data ≠ .ok [[' ', ' '], ['\t']] :=
  ⟨rfl, fun h => absurd (Except.ok.inj h) (by decide)⟩

/-! ## Classifier: `classify_word` (`fython_parser.py`) -/

/-- Python `all(w_idx.isalnum() for w_idx in word.split(WORD_CHAR) if len(w_idx) > 0)`:
splitting on the designator `_` yields only alphanumeric segments (empty
segments are skipped by the generator's filter). -/
def allSegsAlnum (word : String) : Bool :=
  (((pySplit '_' word).filter (fun seg => !seg.data.isEmpty)).all
    (fun seg => seg.data.all Char.isAlphanum))

/-- Python `word[0].isdigit()` (on a nonempty word). -/
def firstIsDigit (word : String) : Bool :=
  match word.data with
  | [] => false
  | c :: _ => c.isDigit

/-- Acceptance domain of Python `float(word)` for the dot-free, sign-free
tokens the lexer can emit: digit groups separated by single underscores
(`float("1_000")` succeeds, `float("1__0")`, `float("_1")`, `float("a")`
fail).  Exponents, `inf`/`nan` and signed forms are not lexable as one token
and are omitted. -/
def pyFloatOk (word : String) : Bool :=
  !word.data.isEmpty &&
    (splitOnCharAux '_' word.data).all
      (fun seg => !seg.isEmpty && seg.all Char.isDigit)

/-- `classify_word(word, pos_index)` of `fython_parser.py`, modelled branch by
branch.  The identifier branch executes `return Symbol.Name` and the float
branch `return Symbol.Value`; the `Symbol` namedtuple (fields
`word type file_index line_index pos_index`) has no attributes `Name` or
`Value`, so both branches fail with an `AttributeError` instead of returning
the intended `SymbolType` — modelled as `Err.attributeError`.  The guard of
the identifier branch evaluates `word[0]` after the `all(...)`, so an empty
word fails with `IndexError` there. -/
def classify_word (word : String) (pos_index : Nat) : Except Err SymbolType :=
  if word.length = 1 ∧ strContains word PUNCT_STR = true then .ok .Punctuation
  else if word.length = 1 ∧ strContains word MATH_STR = true then .ok .MathOperation
  else if word.length = 1 ∧ word = "\n" then .ok .LineBreak
  else if word ∈ VAR_KW then .ok .Keyword
  else if allSegsAlnum word = true ∧ word ≠ "" ∧ firstIsDigit word = false then
    .error .attributeError
  else if allSegsAlnum word = true ∧ word = "" then .error .indexError
  else if word.data.all (fun c => WHITE_CHARS.contains c) then
    if pos_index = 0 then .ok .Whitespace_spacing else .ok .Whitespace_separator
  else if pyFloatOk word = true then .error .attributeError
  else .error .unrecognizedSymbol

/-- C8 (code bug).  For every token that is not a single-character special
token and not a reserved keyword, whose `_`-split yields only alphanumeric
non-empty segments and whose first character is not a digit, the
classification branch that should return `SymbolType.Name` instead evaluates
`Symbol.Name` — an attribute the `Symbol` namedtuple does not have — and so
fails with an `AttributeError` rather than returning `Name`. -/
theorem classify_word_name_is_attribute_error (word : String) (pos_index : Nat)
    (h1 : ¬(word.length = 1 ∧ (strContains word PUNCT_STR = true ∨
      strContains word MATH_STR = true ∨ word = "\n")))
    (h2 : word ∉ VAR_KW)
    (h3 : allSegsAlnum word = true)
    (h4 : word ≠ "")
    (h5 : firstIsDigit word = false) :
    classify_word word pos_index = .error .attributeError := by
  unfold classify_word
  rw [if_neg (fun hh => h1 ⟨hh.1, Or.inl hh.2⟩),
    if_neg (fun hh => h1 ⟨hh.1, Or.inr (Or.inl hh.2)⟩),
    if_neg (fun hh => h1 ⟨hh.1, Or.inr (Or.inr hh.2)⟩),
    if_neg h2, if_pos ⟨h3, h4, h5⟩]

/-- Witness for C8 at the identifier token `abc`. -/
theorem classify_word_name_is_attribute_error_witness :
    classify_word "abc" 0 = .error .attributeError :=
  classify_word_name_is_attribute_error "abc" 0 (by decide) (by decide)
    (by decide) (by decide) (by decide)

/-! ## Quote extraction: `extract_quote` (`fython_parser.py`) -/

/-- `extract_quote(symbol_index, symbol_list, initiating_symbol)` over the
symbols from `symbol_index` onwards.  The entry statement
`symbol = symbol_list[symbol_index]` fails with an out-of-range `IndexError`
when the index is already past the end.  Otherwise the loop condition
`symbol.value != initiating_symbol.value` is evaluated first — and the
`Symbol` namedtuple (fields `word type file_index line_index pos_index`) has
no attribute `value`, so this very first attribute access fails with
`AttributeError`, before any token is compared, accumulated or consumed. -/
def extract_quote (_initiating_symbol : Symbol') :
    List Symbol' → Except Err (String × Nat)
  | [] => .error .indexError
  | _ :: _ => .error .attributeError

/-- Counterexample to C7: scanning from after the opening quote of the script
`'abc` (remaining symbols: the `abc` symbol; no matching quote before the
input ends), the scan fails with an `AttributeError` from the
missing-attribute read `symbol.value`, not with
`SyntaxError(UnterminatedQuote)`. -/
theorem extract_quote_unterminated_counterexample :
    extract_quote ⟨"'", .Punctuation, 0, 0, 0⟩ [⟨"abc", .Name, 1, 0, 1⟩] =
        .error .attributeError ∧
      extract_quote ⟨"'", .Punctuation, 0, 0, 0⟩ [⟨"abc", .Name, 1, 0, 1⟩] ≠
        .error .unterminatedQuote :=
  ⟨rfl, fun h => Err.noConfusion (Except.error.inj h)⟩

/-- C7 as amended.  Quote handling never detects an unterminated quote, and
never scans at all: whenever at least one symbol remains, the first
evaluation of the loop condition reads the attribute `value`, which the
`Symbol` namedtuple does not have, and fails with `AttributeError`; when the
symbols are already exhausted, the initial indexing fails with `IndexError`.
In neither case is `SyntaxError(UnterminatedQuote)` produced. -/
theorem extract_quote_attribute_error :
    (∀ (initiating_symbol : Symbol'),
      extract_quote initiating_symbol [] = .error .indexError) ∧
    (∀ (initiating_symbol s : Symbol') (rest : List Symbol'),
      extract_quote initiating_symbol (s :: rest) = .error .attributeError) :=
  ⟨fun _ => rfl, fun _ _ _ => rfl⟩

/-! ## Parser: `_parse_node` / `_parse_args` (`fython_parser.py`)

The parser walks a word index through the token list; it is modelled over the
remaining token list.  `_parse_node`'s catch-all string-literal branch does
not advance `word_index`, so the parsing loops can genuinely diverge; the
recursion is therefore fuelled.  The three routines are mutually recursive;
they are built as one structurally recursive family over the fuel, each fuel
level applying the plain loop bodies to the previous level. -/

/-- Modelled from the spec: `FUNCTION_KW` is referenced by `_parse_node` but
never defined in the source; per the spec the recognized function names are
the built-ins `min`, `max`, `lookup`. -/
def FUNCTION_KW : List String := ["min", "max", "lookup"]

def digitsToNat (l : List Char) : Nat :=
  l.foldl (fun acc c => acc * 10 + (c.toNat - 48)) 0

/-- Modelled from the spec: `CLOCK_REGEX` is referenced by `_parse_node` but
absent from the source; per the spec it matches 24-hour `HH:MM` clock
tokens.  (The lexer emits `:` as its own token, so no such token can in fact
reach the parser; the branch is modelled for completeness.) -/
def isClockTok (w : String) : Bool :=
  match splitOnCharAux ':' w.data with
  | [h, m] =>
    !h.isEmpty && h.length ≤ 2 && h.all Char.isDigit &&
      m.length == 2 && m.all Char.isDigit &&
      digitsToNat h < 24 && digitsToNat m < 60
  | _ => false

/-- Modelled from the spec: `_parse_24h_clock` is absent from the source; per
the spec a clock literal is normalized to a time of day, here seconds since
midnight. -/
def clockVal (w : String) : Int :=
  match splitOnCharAux ':' w.data with
  | [h, m] => (digitsToNat h * 3600 + digitsToNat m * 60 : Nat)
  | _ => 0

/-- Python `float("".join(word.split("_")))` for the dot-free tokens the
lexer emits: the underscore digit-group separators are stripped and the
digits read as a number. -/
def floatVal (w : String) : Int :=
  (digitsToNat (w.data.filter (fun c => !(c == '_'))) : Nat)

/-- Modelled from the spec: `DURATION_REGEX` and `_parse_duration` are absent
from the source; per the spec a duration token is numeric digits plus a unit
suffix, normalized to seconds (`s`/`m`/`h`). -/
def isDurTok (w : String) : Bool :=
  match w.data.reverse with
  | [] => false
  | u :: bodyRev =>
    (u == 's' || u == 'm' || u == 'h') && !bodyRev.isEmpty
      && bodyRev.all Char.isDigit

/-- Modelled from the spec: duration value in seconds. -/
def durVal (w : String) : Int :=
  match w.data.reverse with
  | [] => 0
  | u :: bodyRev =>
    let n : Int := (digitsToNat bodyRev.reverse : Nat)
    if u == 'm' then n * 60 else if u == 'h' then n * 3600 else n

/-- Modelled from the spec: `time.normalize_time` is absent from the source;
per the spec a keyword stands in as a literal in canonical form, modelled as
the keyword text itself. -/
def normalize_time (w : String) : Value := .str w

abbrev ParseNodeT := List String → Except Err (Node × List String)
abbrev ParseArgsT := List String → Except Err (List (List Node) × List String)
abbrev ParseLoopT :=
  List (List Node) → List Node → List String → Except Err (List (List Node) × List String)

/-- Body of `_parse_node(word_list, word_index, timezone)`, branch for
branch, over the remaining tokens; `pargs` is `_parse_args`.  `word in
PUNCTUATION` / `word in MATH_KW` are Python substring tests on those strings.
The final catch-all (`ANY UNKOWN WORDS ARE TREATED AS STRING LITERALS`)
returns the node but — exactly as the source, which omits the
`word_index += 1` — does not consume the token. -/
def parse_node_body (pargs : ParseArgsT) : ParseNodeT := fun toks =>
  match toks with
  | [] => .error .indexError
  | w :: rest =>
    if FUNCTION_KW.contains w then
      match pargs rest with
      | .error e => .error e
      | .ok (args, r2) => .ok (.func w args, r2)
    else if strContains w PUNCT_STR then .ok (.punc w, rest)
    else if strContains w MATH_STR then .ok (.arith w, rest)
    else if isClockTok w then .ok (.var (.num (clockVal w)), rest)
    else if pyFloatOk w then .ok (.var (.num (floatVal w)), rest)
    else if isDurTok w then .ok (.var (.num (durVal w)), rest)
    else if VAR_KW.contains w then .ok (.var (normalize_time w), rest)
    else .ok (.var (.str w), w :: rest)

/-- Body of the `while next_node != ")"` loop of `_parse_args`: parse a node;
a `,` punctuation node closes the current argument accumulator `prog` onto
`args` and starts a new empty one; the `)` punctuation node appends the final
accumulator and returns; every other node is appended to the current
accumulator. -/
def parse_args_loop_body (pnode : ParseNodeT) (ploop : ParseLoopT) : ParseLoopT :=
  fun args prog toks =>
    match pnode toks with
    | .error e => .error e
    | .ok (n, rest) =>
      match n with
      | .punc "," => ploop (args ++ [prog]) [] rest
      | .punc ")" => .ok (args ++ [prog], rest)
      | n' => ploop args (prog ++ [n']) rest

/-- Entry of `_parse_args`: parse one node; unless it is the `(` punctuation
node, fail — the raise there is written against the undefined name
`InvalidSyntaxException` (message `Expected ( at word`), so the Python
failure is a `NameError` naming that identifier, modelled as
`Err.nameError "InvalidSyntaxException"`; otherwise run the argument loop
with empty accumulators. -/
def parse_args_body (pnode : ParseNodeT) (ploop : ParseLoopT) : ParseArgsT := fun toks =>
  match pnode toks with
  | .error e => .error e
  | .ok (n, rest) =>
    match n with
    | .punc "(" => ploop [] [] rest
    | _ => .error (.nameError "InvalidSyntaxException")

/-- The fuel-indexed family of the three mutually recursive parser
routines. -/
def parseFns : Nat → ParseNodeT × ParseArgsT × ParseLoopT
  | 0 => (fun _ => .error .fuel, fun _ => .error .fuel, fun _ _ _ => .error .fuel)
  | f + 1 =>
    (parse_node_body (parseFns f).2.1,
      parse_args_body (parseFns f).1 (parseFns f).2.2,
      parse_args_loop_body (parseFns f).1 (parseFns f).2.2)

/-- `_parse_node` at a given fuel. -/
def parse_node (fuel : Nat) : ParseNodeT := (parseFns fuel).1

/-- `_parse_args` at a given fuel. -/
def parse_args (fuel : Nat) : ParseArgsT := (parseFns fuel).2.1

/-- The `_parse_args` argument-routing loop at a given fuel. -/
def parse_args_loop (fuel : Nat) : ParseLoopT := (parseFns fuel).2.2

lemma parse_node_succ (f : Nat) : parse_node (f + 1) = parse_node_body (parse_args f) := rfl

lemma parse_args_succ (f : Nat) :
    parse_args (f + 1) = parse_args_body (parse_node f) (parse_args_loop f) := rfl

lemma parse_args_loop_succ (f : Nat) :
    parse_args_loop (f + 1) = parse_args_loop_body (parse_node f) (parse_args_loop f) := rfl

/-- The top-level parse loop (`parse one node, append, repeat while tokens
remain`), as in `parse_ast_from_symbols` and the missing `_parse_program`. -/
def parse_prog : Nat → List String → Except Err (List Node)
  | 0, _ => .error .fuel
  | _ + 1, [] => .ok []
  | fuel + 1, toks@(_ :: _) =>
    match parse_node fuel toks with
    | .error e => .error e
    | .ok (n, rest) =>
      match parse_prog fuel rest with
      | .error e => .error e
      | .ok l => .ok (n :: l)

/-! ## Evaluator: `_run_func` and `_evaluate_program` (`fython_runner.py`)

The caller-supplied context `global_var` is the one piece of caller-visible
state the evaluator touches; it is threaded through explicitly (every routine
that receives it returns it alongside the result), so that the frame property
"evaluation leaves the context unchanged" is a provable statement about the
threaded state. -/

/-- Python `a < b` on the runtime values (numbers compare numerically,
strings lexicographically, any other combination raises `TypeError`). -/
def pyLt : Value → Value → Except Err Bool
  | .num a, .num b => .ok (decide (a < b))
  | .str a, .str b => .ok (decide (a < b))
  | _, _ => .error .typeError

/-- Python `a > b` on the runtime values. -/
def pyGt : Value → Value → Except Err Bool
  | .num a, .num b => .ok (decide (b < a))
  | .str a, .str b => .ok (decide (b < a))
  | _, _ => .error .typeError

def pyMinFold (m : Value) : List Value → Except Err Value
  | [] => .ok m
  | x :: rest =>
    match pyLt x m with
    | .error e => .error e
    | .ok b => pyMinFold (if b then x else m) rest

/-- Python `min(args)`: `ValueError` on an empty sequence, else the running
comparison fold (first minimum kept). -/
def pyMin : List Value → Except Err Value
  | [] => .error .valueError
  | v :: rest => pyMinFold v rest

def pyMaxFold (m : Value) : List Value → Except Err Value
  | [] => .ok m
  | x :: rest =>
    match pyGt x m with
    | .error e => .error e
    | .ok b => pyMaxFold (if b then x else m) rest

/-- Python `max(args)`. -/
def pyMax : List Value → Except Err Value
  | [] => .error .valueError
  | v :: rest => pyMaxFold v rest

/-- Python `var1 + var2`: numeric addition, string concatenation, `TypeError`
otherwise. -/
def pyAdd : Value → Value → Except Err Value
  | .num a, .num b => .ok (.num (a + b))
  | .str a, .str b => .ok (.str (a ++ b))
  | _, _ => .error .typeError

/-- Python `var1 - var2`. -/
def pySub : Value → Value → Except Err Value
  | .num a, .num b => .ok (.num (a - b))
  | _, _ => .error .typeError

/-- Python `var1 * var2` on the value forms the language produces. -/
def pyMul : Value → Value → Except Err Value
  | .num a, .num b => .ok (.num (a * b))
  | _, _ => .error .typeError

/-- Python `var1 / var2`: `ZeroDivisionError` on a zero divisor; otherwise
division (on the integer values of this embedding, integer division — no
claim exercises a non-integer quotient). -/
def pyDiv : Value → Value → Except Err Value
  | .num a, .num b => if b = 0 then .error .zeroDivision else .ok (.num (a / b))
  | _, _ => .error .typeError

/-- The arithmetic dispatch of `_evaluate_program` (`+`, `-`, `/`, `*` in
source order; any other operator, e.g. `=`, reaches a raise written against
the undefined name `RuntimeException` — in Python a `NameError`). -/
def applyOp (op : String) (v1 v2 : Value) : Except Err Value :=
  if op = "+" then pyAdd v1 v2
  else if op = "-" then pySub v1 v2
  else if op = "/" then pyDiv v1 v2
  else if op = "*" then pyMul v1 v2
  else .error (.nameError "RuntimeException")

/-- Python dict key search (first matching key). -/
def findEntry (es : List (String × Value)) (k : String) : Option Value :=
  match es with
  | [] => Option.none
  | e :: rest => if e.1 == k then Option.some e.2 else findEntry rest k

/-- Python `path in lookup_step`: key membership on a dict, substring test on
a string, `TypeError` on a number or `None` (not iterable). -/
def pyContains (step : Value) (path : String) : Except Err Bool :=
  match step with
  | .dict es => .ok (findEntry es path).isSome
  | .str s => .ok (strContains path s)
  | _ => .error .typeError

/-- Python `lookup_step[path]`: dict indexing (`KeyError` if absent);
indexing a string by a string is `TypeError` (string indices must be
integers); a number or `None` is not subscriptable. -/
def pyIndex (step : Value) (path : String) : Except Err Value :=
  match step with
  | .dict es =>
    match findEntry es path with
    | Option.some v => .ok v
    | Option.none => .error .keyError
  | _ => .error .typeError

/-- The `for path in lookup_path` walk of `_run_func`'s `lookup` branch:
`if path not in lookup_step: return None` then
`lookup_step = lookup_step[path]`; the value at the end of the walk is the
result. -/
def lookupWalk : Value → List String → Except Err Value
  | step, [] => .ok step
  | step, p :: rest =>
    match pyContains step p with
    | .error e => .error e
    | .ok false => .ok .none
    | .ok true =>
      match pyIndex step p with
      | .error e => .error e
      | .ok nxt => lookupWalk nxt rest

/-- `_run_func(func_name, args, global_var)`: dispatch on the function name;
`min`/`max` over the evaluated arguments; `lookup` splits its single string
argument on `.` and walks the context; the raises for any other name and
for `lookup` with more than one argument are both written against the
undefined name `RuntimeException`, so each is a Python `NameError`; with no
argument `args[0]` is an `IndexError`; with a non-string argument
`args[0].split(".")` is an `AttributeError`. -/
def run_func (func_name : String) (args : List Value) (global_var : Value) :
    Except Err (Value × Value) :=
  if func_name = "min" then
    match pyMin args with
    | .error e => .error e
    | .ok v => .ok (v, global_var)
  else if func_name = "max" then
    match pyMax args with
    | .error e => .error e
    | .ok v => .ok (v, global_var)
  else if func_name = "lookup" then
    if args.length > 1 then .error (.nameError "RuntimeException")
    else
      match args with
      | [] => .error .indexError
      | a :: _ =>
        match a with
        | .str p =>
          match lookupWalk global_var (pySplit '.' p) with
          | .error e => .error e
          | .ok v => .ok (v, global_var)
        | _ => .error .attributeError
  else .error (.nameError "RuntimeException")

/-- The `len(exec_stack) != 1` completion check of `_evaluate_program`: with
exactly one value left on the stack, return it (`exec_stack.pop(-1)`); with
zero or several, the raise is written against the undefined name
`RuntimeException` (message `exec_stack has N values left at program
completion`), so the Python failure is a `NameError` naming that
identifier. -/
def endOfProgram (gv : Value) (stack : List Value) : Except Err (Value × Value) :=
  match stack with
  | [v] => .ok (v, gv)
  | _ => .error (.nameError "RuntimeException")

abbrev EvalT := Value → List Value → List Node → Except Err (Value × Value)

/-- `[_evaluate_program(arg) for arg in instr["args"]]`: each argument
sub-program is evaluated with a fresh stack and — as in the source call,
which passes no `global_var` — a `None` context. -/
def evalArgsWith (prev : EvalT) : List (List Node) → Except Err (List Value)
  | [] => .ok []
  | a :: rest =>
    match prev Value.none [] a with
    | .error e => .error e
    | .ok r =>
      match evalArgsWith prev rest with
      | .error e => .error e
      | .ok vs => .ok (r.1 :: vs)

/-- Body of the `while prog_idx < len(prog)` loop of `_evaluate_program`,
over `(global_var, exec_stack, remaining instructions)`; `prev` is the loop
at the previous fuel level, also used for the recursive
`_evaluate_program` calls.  A `var` node pushes its value.  An `arithmatic`
node reads `prog[prog_idx + 1]` (an `IndexError` when absent) for the right
operand — a `var`'s value directly, a `func` evaluated recursively (without
`global_var`, hence with a `None` context), anything else the invalid-node
`RuntimeError` — then pops the left operand (`IndexError` on an empty
stack), applies the operator and advances past both nodes.  A `func` node
evaluates its argument sub-programs, dispatches `_run_func` and pushes the
result.  Any other node reaches a raise written against the undefined name
`RuntimeException` (a Python `NameError`). -/
def eval_loop_body (prev : EvalT) : EvalT := fun gv stack prog =>
  match prog with
  | [] => endOfProgram gv stack
  | instr :: rest =>
    match instr with
    | .var v => prev gv (v :: stack) rest
    | .arith op =>
      match rest with
      | [] => .error .indexError
      | next :: rest2 =>
        match (match next with
          | .var v2 => .ok v2
          | .func _ _ =>
            match prev Value.none [] [next] with
            | .error e => .error e
            | .ok r => .ok r.1
          | _ => .error .invalidNode : Except Err Value) with
        | .error e => .error e
        | .ok var2 =>
          match stack with
          | [] => .error .indexError
          | var1 :: stack' =>
            match applyOp op var1 var2 with
            | .error e => .error e
            | .ok r => prev gv (r :: stack') rest2
    | .func name args =>
      match evalArgsWith prev args with
      | .error e => .error e
      | .ok vals =>
        match run_func name vals gv with
        | .error e => .error e
        | .ok (r, gv2) => prev gv2 (r :: stack) rest
    | .punc _ => .error (.nameError "RuntimeException")

/-- The `_evaluate_program` loop at a given fuel (one unit per loop
iteration and per recursive call; the completion check is fuel-free). -/
def eval_loop : Nat → EvalT
  | 0 => fun gv stack prog =>
    match prog with
    | [] => endOfProgram gv stack
    | _ :: _ => .error .fuel
  | f + 1 => eval_loop_body (eval_loop f)

/-- `_evaluate_program(prog, global_var)` at a given fuel. -/
def evaluate_program (fuel : Nat) (prog : List Node) (global_var : Value) :
    Except Err (Value × Value) :=
  eval_loop fuel global_var [] prog

/-- Modelled from the spec: `_parse_program` is called by `evaluate_script`
but defined nowhere in the source; per the spec the parser consumes the
token stream node by node (§4.3) while whitespace tokens serve only as
spacing/separator symbols (§4.2) and take no part in node dispatch (§8's
evaluation examples require them not to reach it), so whitespace and
line-break tokens are dropped and the remaining tokens parsed by the
`_parse_node` loop. -/
def parse_program (fuel : Nat) (words : List String) : Except Err (List Node) :=
  parse_prog fuel (words.filter
    (fun w => !(w.data.all (fun c => WHITE_CHARS.contains c || c == '\n'))))

/-- `evaluate_script(script, timezone, global_var)` of `fython_runner.py`:
lex, parse, evaluate against the context. -/
def evaluate_script (fuel : Nat) (script : String) (global_var : Value) :
    Except Err (Value × Value) :=
  match decompose_script script.data with
  | .error e => .error e
  | .ok toks =>
    match parse_program fuel (toks.map (fun l => String.mk l)) with
    | .error e => .error e
    | .ok prog => eval_loop fuel global_var [] prog

/-- C1 (code bug).  The evaluator's left-to-right single-lookahead
arithmetic rule (an `arithmatic` node pops the previously pushed value as
left operand, takes the next node's value as right operand and advances past
both) does yield `0` and `4` on the instruction programs the two scripts
describe — the last two conjuncts.  But the programs actually parsed from
`2 - 1 - 1` and `min(1,2) + 3` never evaluate to anything: the lexer's
retained word buffer glues whitespace onto the literal tokens (` 1`, ` 3`),
such a token falls to `_parse_node`'s catch-all branch, which does not
advance the index, and the parse loop never terminates — modelled as fuel
exhaustion (the first two conjuncts). -/
theorem evaluate_script_lookahead_divergence :
    evaluate_script 100 "2 - 1 - 1" .none = .error .fuel ∧
      evaluate_script 100 "min(1,2) + 3" .none = .error .fuel ∧
      evaluate_program 100
          [.var (.num 2), .arith "-", .var (.num 1), .arith "-", .var (.num 1)]
          .none = .ok (.num 0, .none) ∧
      evaluate_program 100
          [.func "min" [[.var (.num 1)], [.var (.num 2)]], .arith "+",
            .var (.num 3)] .none = .ok (.num 4, .none) :=
  ⟨rfl, rfl, rfl, rfl⟩

/-- Counterexample to C4: a program of two `var` literal nodes with no
connecting operator or function fails — but through the undefined name
`RuntimeException`, i.e. with a Python `NameError`, not with
`RuntimeError(StackImbalance)` as claimed. -/
theorem eval_stack_imbalance_counterexample :
    evaluate_program 2 [.var (.num 1), .var (.num 2)] .none =
        .error (.nameError "RuntimeException") ∧
      evaluate_program 2 [.var (.num 1), .var (.num 2)] .none ≠
        .error .stackImbalance :=
  ⟨rfl, fun h => Err.noConfusion (Except.error.inj h)⟩

/-- C4 as amended.  When the evaluation pass completes, a stack holding a
number of values different from one is a fatal failure — but its raise site
is written against the undefined name `RuntimeException`, so the failure is
a Python `NameError`, not `RuntimeError(StackImbalance)`; exactly one
remaining value is returned.  In particular a program of two `var` literal
nodes with no connecting operator or function fails this way. -/
theorem eval_loop_completion_name_error :
    (∀ (fuel : Nat) (gv : Value) (stack : List Value),
      stack.length ≠ 1 →
        eval_loop fuel gv stack [] = .error (.nameError "RuntimeException")) ∧
    (∀ (fuel : Nat) (gv : Value) (v : Value),
      eval_loop fuel gv [v] [] = .ok (v, gv)) ∧
    (∀ (fuel : Nat) (gv : Value) (v w : Value),
      evaluate_program (fuel + 2) [.var v, .var w] gv =
        .error (.nameError "RuntimeException")) := by
  refine ⟨?_, ?_, ?_⟩
  · intro fuel gv stack hlen
    have hred : eval_loop fuel gv stack [] = endOfProgram gv stack := by
      cases fuel <;> rfl
    rw [hred]
    match stack with
    | [] => rfl
    | [v] => exact absurd rfl hlen
    | _ :: _ :: _ => rfl
  · intro fuel gv v
    cases fuel <;> rfl
  · intro fuel gv v w
    cases fuel <;> rfl

/-- Witness for C4 (amended). -/
theorem eval_loop_completion_name_error_witness :
    eval_loop 0 Value.none [] [] = .error (.nameError "RuntimeException") ∧
      eval_loop 0 Value.none [.num 1] [] = .ok (.num 1, .none) ∧
      evaluate_program 2 [.var (.num 1), .var (.num 2)] .none =
        .error (.nameError "RuntimeException") :=
  ⟨eval_loop_completion_name_error.1 0 .none [] (by decide),
    eval_loop_completion_name_error.2.1 0 .none (.num 1),
    eval_loop_completion_name_error.2.2 0 .none (.num 1) (.num 2)⟩

lemma eval_loop_succ (f : Nat) : eval_loop (f + 1) = eval_loop_body (eval_loop f) := rfl

/-- `_run_func` hands back the context it was given whenever it returns. -/
lemma run_func_preserves_context (name : String) (args : List Value)
    (gv r gv2 : Value) (h : run_func name args gv = .ok (r, gv2)) : gv2 = gv := by
  unfold run_func at h
  split_ifs at h <;>
    first
    | exact Except.noConfusion h
    | · repeat' split at h
        all_goals
          first
          | exact Except.noConfusion h
          | · simp only [Except.ok.injEq, Prod.mk.injEq] at h
              exact h.2.symm

/-- The evaluation loop hands back the context it was given whenever it
returns. -/
lemma eval_loop_preserves_context :
    ∀ (fuel : Nat) (gv : Value) (stack : List Value) (prog : List Node)
      (v gv2 : Value), eval_loop fuel gv stack prog = .ok (v, gv2) → gv2 = gv := by
  intro fuel
  induction fuel with
  | zero =>
    intro gv stack prog v gv2 h
    match prog with
    | _ :: _ => exact Except.noConfusion h
    | [] =>
      have h' : endOfProgram gv stack = .ok (v, gv2) := h
      unfold endOfProgram at h'
      split at h'
      · simp only [Except.ok.injEq, Prod.mk.injEq] at h'
        exact h'.2.symm
      · exact Except.noConfusion h'
  | succ f ih =>
    intro gv stack prog v gv2 h
    rw [eval_loop_succ] at h
    match prog with
    | [] =>
      have h' : endOfProgram gv stack = .ok (v, gv2) := h
      unfold endOfProgram at h'
      split at h'
      · simp only [Except.ok.injEq, Prod.mk.injEq] at h'
        exact h'.2.symm
      · exact Except.noConfusion h'
    | instr :: rest =>
      match instr with
      | .var v' => exact ih _ _ _ _ _ h
      | .punc s => exact Except.noConfusion h
      | .arith op =>
        simp only [eval_loop_body] at h
        repeat' split at h
        all_goals
          first
          | exact Except.noConfusion h
          | exact ih _ _ _ _ _ h
      | .func name args =>
        simp only [eval_loop_body] at h
        split at h
        · exact Except.noConfusion h
        · rename_i vals hvals
          split at h
          · exact Except.noConfusion h
          · rename_i r gv' hrf
            have hg : gv' = gv := run_func_preserves_context name vals gv r gv' hrf
            rw [hg] at h
            exact ih _ _ _ _ _ h

/-- C9.  Evaluation is side-effect-free with respect to the supplied context:
the context `_evaluate_program` threads through (the only caller-visible
state it touches — `_run_func` only reads it and no module state is written)
comes back unchanged whenever evaluation returns a value. -/
theorem evaluate_program_context_unchanged (fuel : Nat) (prog : List Node)
    (gv v gv2 : Value) (h : evaluate_program fuel prog gv = .ok (v, gv2)) :
    gv2 = gv :=
  eval_loop_preserves_context fuel gv [] prog v gv2 h

/-- Witness for C9 on a one-literal program against a dict context. -/
theorem evaluate_program_context_unchanged_witness :
    evaluate_program 2 [.var (.num 7)] (.dict [("k", .num 1)]) =
        .ok (.num 7, .dict [("k", .num 1)]) ∧
      (Value.dict [("k", .num 1)] : Value) = .dict [("k", .num 1)] :=
  ⟨rfl,
    evaluate_program_context_unchanged 2 [.var (.num 7)] (.dict [("k", .num 1)])
      (.num 7) (.dict [("k", .num 1)]) rfl⟩

/-! ## The lookup walk against the spec's description (C5, C10) -/

/-- Does the lookup walk over this value and these segments stay inside
mappings (each visited position with segments remaining is a dict, missing
keys allowed)?  This is the hypothesis under which the spec describes the
walk. -/
def dictWalk : Value → List String → Bool
  | _, [] => true
  | .dict es, p :: rest =>
    match findEntry es p with
    | Option.some v => dictWalk v rest
    | Option.none => true
  | _, _ :: _ => false

/-- The lookup walk as the spec words it (refinement comparator, not from
the source): walk the context mapping segment by segment; if any segment is
absent the result is the null value; otherwise the value found at the final
segment. -/
def lookup_spec : Value → List String → Value
  | v, [] => v
  | .dict es, p :: rest =>
    match findEntry es p with
    | Option.some v => lookup_spec v rest
    | Option.none => .none
  | _, _ :: _ => .none

lemma lookupWalk_eq_spec : ∀ (segs : List String) (v : Value),
    dictWalk v segs = true → lookupWalk v segs = .ok (lookup_spec v segs) := by
  intro segs
  induction segs with
  | nil => intro v _; cases v <;> rfl
  | cons p rest ih =>
    intro v h
    match v with
    | .num n => simp [dictWalk] at h
    | .str s => simp [dictWalk] at h
    | .none => simp [dictWalk] at h
    | .dict es =>
      cases hf : findEntry es p with
      | none => simp [lookupWalk, pyContains, hf, lookup_spec]
      | some v' =>
        have h' : dictWalk v' rest = true := by simpa [dictWalk, hf] using h
        simp [lookupWalk, pyContains, pyIndex, hf, lookup_spec, ih v' h']

/-- C5.  The built-in `lookup` takes one string argument, splits it on `.`
and walks the context mapping segment by segment; whenever the walk stays
inside mappings, the result is exactly the spec-described value — the null
value if some segment is absent (not an error), and otherwise the value at
the final segment (itself possibly a mapping, number or string) — with the
context handed back untouched. -/
theorem run_func_lookup_spec (p : String) (gv : Value)
    (h : dictWalk gv (pySplit '.' p) = true) :
    run_func "lookup" [.str p] gv = .ok (lookup_spec gv (pySplit '.' p), gv) := by
  have hred : run_func "lookup" [.str p] gv =
      (match lookupWalk gv (pySplit '.' p) with
        | .error e => .error e
        | .ok v => .ok (v, gv)) := rfl
  rw [hred, lookupWalk_eq_spec _ _ h]

/-- Witness for C5 at context `{"sensor": {"temp": 21}}` and path
`sensor.temp`. -/
theorem run_func_lookup_spec_witness :
    dictWalk (.dict [("sensor", .dict [("temp", .num 21)])])
        (pySplit '.' "sensor.temp") = true ∧
      run_func "lookup" [.str "sensor.temp"]
          (.dict [("sensor", .dict [("temp", .num 21)])]) =
        .ok (lookup_spec (.dict [("sensor", .dict [("temp", .num 21)])])
            (pySplit '.' "sensor.temp"),
          .dict [("sensor", .dict [("temp", .num 21)])]) :=
  ⟨by decide, run_func_lookup_spec "sensor.temp" _ (by decide)⟩

/-- Counterexample to C10: with context `{"a": "xyz"}` and path `a.b`, the
intermediate segment resolves to a terminal string while a segment remains,
yet the walk returns the null value — Python's membership test on a string
is a substring test and `"b" in "xyz"` is simply false — rather than
failing with an error as the claim states. -/
theorem lookupWalk_string_terminal_counterexample :
    lookupWalk (.dict [("a", .str "xyz")]) ["a", "b"] = .ok .none := rfl

/-- C10 as amended.  When the walk position is a terminal value with
segments remaining: on a number the membership test raises `TypeError`; on a
string the membership test is Python's substring test — a segment that is
not a substring yields the null value, and a segment that is a substring
leads to string indexing, which fails with `TypeError`. -/
theorem lookupWalk_terminal_behavior :
    (∀ (n : Int) (p : String) (rest : List String),
      lookupWalk (.num n) (p :: rest) = .error .typeError) ∧
    (∀ (s p : String) (rest : List String), strContains p s = false →
      lookupWalk (.str s) (p :: rest) = .ok .none) ∧
    (∀ (s p : String) (rest : List String), strContains p s = true →
      lookupWalk (.str s) (p :: rest) = .error .typeError) := by
  refine ⟨fun n p rest => rfl, ?_, ?_⟩
  · intro s p rest h
    simp [lookupWalk, pyContains, h]
  · intro s p rest h
    simp [lookupWalk, pyContains, pyIndex, h]

/-- Witness for C10 (amended). -/
theorem lookupWalk_terminal_behavior_witness :
    lookupWalk (.num 5) ["b"] = .error .typeError ∧
      lookupWalk (.str "xyz") ["b"] = .ok .none ∧
      lookupWalk (.str "xb") ["b"] = .error .typeError :=
  ⟨lookupWalk_terminal_behavior.1 5 "b" [],
    lookupWalk_terminal_behavior.2.1 "xyz" "b" [] (by decide),
    lookupWalk_terminal_behavior.2.2 "xb" "b" [] (by decide)⟩

/-! ## C6: argument-list parsing (`_parse_args`) -/

/-- A token `_parse_node` turns into a single consuming non-punctuation
node: not a recognized function name, not punctuation, and matched by one of
the operator/literal/keyword branches (so the non-consuming catch-all branch
is not reached). -/
def simpleTok (w : String) : Bool :=
  !FUNCTION_KW.contains w && !strContains w PUNCT_STR &&
    (strContains w MATH_STR || isClockTok w || pyFloatOk w || isDurTok w
      || VAR_KW.contains w)

/-- The node `_parse_node` produces for a simple token (same branch order as
`_parse_node`). -/
def nodeOf (w : String) : Node :=
  if strContains w MATH_STR = true then .arith w
  else if isClockTok w = true then .var (.num (clockVal w))
  else if pyFloatOk w = true then .var (.num (floatVal w))
  else if isDurTok w = true then .var (.num (durVal w))
  else .var (normalize_time w)

lemma nodeOf_ne_punc (w s : String) : nodeOf w ≠ .punc s := by
  unfold nodeOf
  split_ifs <;> exact fun h => Node.noConfusion h

lemma parse_node_simple (w : String) (hs : simpleTok w = true) (f : Nat)
    (rest : List String) : parse_node (f + 1) (w :: rest) = .ok (nodeOf w, rest) := by
  have h := hs
  unfold simpleTok at h
  simp only [Bool.and_eq_true, Bool.not_eq_true', Bool.or_eq_true] at h
  obtain ⟨⟨h1, h2⟩, h3⟩ := h
  rw [parse_node_succ]
  unfold parse_node_body
  simp only [h1, h2, Bool.false_eq_true, if_false]
  unfold nodeOf
  split_ifs with hm hc hf hd hk
  · rfl
  · rfl
  · rfl
  · rfl
  · rfl
  · rcases h3 with ((((h3 | h3) | h3) | h3) | h3)
    · exact absurd h3 hm
    · exact absurd h3 hc
    · exact absurd h3 hf
    · exact absurd h3 hd
    · exact absurd h3 hk

lemma parse_node_open (f : Nat) (rest : List String) :
    parse_node (f + 1) ("(" :: rest) = .ok (.punc "(", rest) := by
  rw [parse_node_succ]; rfl

lemma parse_node_close (f : Nat) (rest : List String) :
    parse_node (f + 1) (")" :: rest) = .ok (.punc ")", rest) := by
  rw [parse_node_succ]; rfl

lemma parse_node_comma (f : Nat) (rest : List String) :
    parse_node (f + 1) ("," :: rest) = .ok (.punc ",", rest) := by
  rw [parse_node_succ]; rfl

/-- Token list of an argument list after the opening parenthesis: the
comma-separated groups, the closing parenthesis, the trailing tokens. -/
def argBody : List (List String) → List String → List String
  | [], rest => ")" :: rest
  | [g], rest => g ++ ")" :: rest
  | g :: gs, rest => g ++ "," :: argBody gs rest

/-- Number of tokens of an argument list after the opening parenthesis (the
groups, the separating commas, the closing parenthesis). -/
def argTokCount : List (List String) → Nat
  | [] => 1
  | [g] => g.length + 1
  | g :: gs => g.length + 1 + argTokCount gs

/-- The argument loop routes a run of simple tokens into the current
accumulator, consuming one fuel per token. -/
lemma parse_args_loop_consume :
    ∀ (g : List String) (f : Nat) (args : List (List Node)) (prog : List Node)
      (tail : List String), (∀ x ∈ g, simpleTok x = true) →
      parse_args_loop (g.length + (f + 1)) args prog (g ++ tail) =
        parse_args_loop (f + 1) args (prog ++ g.map nodeOf) tail := by
  intro g
  induction g with
  | nil => intro f args prog tail _; simp
  | cons w g' ih =>
    intro f args prog tail hall
    have hw : simpleTok w = true := hall w (by simp)
    have hg' : ∀ x ∈ g', simpleTok x = true := fun x hx => hall x (by simp [hx])
    rw [show (w :: g').length + (f + 1) = (g'.length + (f + 1)) + 1 by
      simp [List.length_cons]; omega]
    rw [parse_args_loop_succ]
    unfold parse_args_loop_body
    rw [List.cons_append,
      show g'.length + (f + 1) = (g'.length + f) + 1 by omega,
      parse_node_simple w hw (g'.length + f) (g' ++ tail)]
    have hnp := nodeOf_ne_punc w
    cases hno : nodeOf w with
    | var v =>
      show parse_args_loop (g'.length + f + 1) args (prog ++ [Node.var v])
        (g' ++ tail) = _
      rw [show g'.length + f + 1 = g'.length + (f + 1) by omega,
        ih f args (prog ++ [Node.var v]) tail hg']
      simp [hno]
    | arith opn =>
      show parse_args_loop (g'.length + f + 1) args (prog ++ [Node.arith opn])
        (g' ++ tail) = _
      rw [show g'.length + f + 1 = g'.length + (f + 1) by omega,
        ih f args (prog ++ [Node.arith opn]) tail hg']
      simp [hno]
    | func nm fargs =>
      show parse_args_loop (g'.length + f + 1) args (prog ++ [Node.func nm fargs])
        (g' ++ tail) = _
      rw [show g'.length + f + 1 = g'.length + (f + 1) by omega,
        ih f args (prog ++ [Node.func nm fargs]) tail hg']
      simp [hno]
    | punc s => exact absurd hno (hnp s)

/-- The argument loop on a full comma-separated token body: each group
becomes one argument sub-program, a comma closes the current accumulator, the
closing parenthesis appends the final one. -/
lemma parse_args_loop_groups :
    ∀ (gs : List (List String)) (g : List String) (f : Nat)
      (args : List (List Node)) (prog : List Node) (rest : List String),
      (∀ x ∈ g, simpleTok x = true) →
      (∀ h ∈ gs, ∀ x ∈ h, simpleTok x = true) →
      parse_args_loop (argTokCount (g :: gs) + (f + 1)) args prog
          (argBody (g :: gs) rest) =
        .ok (args ++ [prog ++ g.map nodeOf] ++ gs.map (fun h => h.map nodeOf),
          rest) := by
  intro gs
  induction gs with
  | nil =>
    intro g f args prog rest hg _
    rw [show argTokCount [g] + (f + 1) = g.length + ((f + 1) + 1) by
      simp [argTokCount]; omega]
    rw [show argBody [g] rest = g ++ ")" :: rest from rfl]
    rw [parse_args_loop_consume g (f + 1) args prog (")" :: rest) hg]
    rw [parse_args_loop_succ]
    unfold parse_args_loop_body
    rw [parse_node_close f rest]
    simp
  | cons g2 gs' ih =>
    intro g f args prog rest hg hgs
    have hg2 : ∀ x ∈ g2, simpleTok x = true := hgs g2 (by simp)
    have hgs' : ∀ h ∈ gs', ∀ x ∈ h, simpleTok x = true :=
      fun h hh => hgs h (by simp [hh])
    rw [show argTokCount (g :: g2 :: gs') + (f + 1)
        = g.length + ((argTokCount (g2 :: gs') + (f + 1)) + 1) by
      rw [show argTokCount (g :: g2 :: gs') = g.length + 1 + argTokCount (g2 :: gs')
        from rfl]; omega]
    rw [show argBody (g :: g2 :: gs') rest = g ++ "," :: argBody (g2 :: gs') rest
      from rfl]
    rw [parse_args_loop_consume g (argTokCount (g2 :: gs') + (f + 1)) args prog
      ("," :: argBody (g2 :: gs') rest) hg]
    rw [parse_args_loop_succ]
    unfold parse_args_loop_body
    rw [show argTokCount (g2 :: gs') + (f + 1) = (argTokCount (g2 :: gs') + f) + 1
      by omega]
    rw [parse_node_comma (argTokCount (g2 :: gs') + f) (argBody (g2 :: gs') rest)]
    rw [show (argTokCount (g2 :: gs') + f) + 1 = argTokCount (g2 :: gs') + (f + 1)
      by omega]
    show parse_args_loop (argTokCount (g2 :: gs') + (f + 1))
      (args ++ [prog ++ g.map nodeOf]) [] (argBody (g2 :: gs') rest) = _
    rw [ih g2 f (args ++ [prog ++ g.map nodeOf]) [] rest hg2 hgs']
    simp

/-- Counterexample to C6: a first node that is not the `(` punctuation node
makes `_parse_args` fail — but through the undefined name
`InvalidSyntaxException`, i.e. with a Python `NameError`, not with
`SyntaxError(ExpectedOpenParen)` as claimed. -/
theorem parse_args_open_paren_counterexample :
    parse_args 2 ["1"] = .error (.nameError "InvalidSyntaxException") ∧
      parse_args 2 ["1"] ≠ .error .expectedOpenParen :=
  ⟨rfl, fun h => Err.noConfusion (Except.error.inj h)⟩

/-- C6 as amended.  Argument-list parsing first parses one node and fails if
that node is not the `(` punctuation node — but the raise is written against
the undefined name `InvalidSyntaxException`, so the failure is a Python
`NameError`, not `SyntaxError(ExpectedOpenParen)`; otherwise it repeatedly
parses nodes, appending each non-punctuation node to the current argument
accumulator, a `,` punctuation node closing the current argument and
starting a new empty one, until the `)` punctuation node appends the final
accumulator (possibly empty, for a no-argument call), yielding the ordered
sequence of argument sub-programs. -/
theorem parse_args_routing :
    (∀ (f : Nat) (toks : List String) (n : Node) (rest : List String),
      parse_node f toks = .ok (n, rest) → n ≠ .punc "(" →
      parse_args (f + 1) toks = .error (.nameError "InvalidSyntaxException")) ∧
    (∀ (g : List String) (gs : List (List String)) (f : Nat) (rest : List String),
      (∀ x ∈ g, simpleTok x = true) →
      (∀ h ∈ gs, ∀ x ∈ h, simpleTok x = true) →
      parse_args (argTokCount (g :: gs) + (f + 3)) ("(" :: argBody (g :: gs) rest) =
        .ok ((g :: gs).map (fun h => h.map nodeOf), rest)) := by
  constructor
  · intro f toks n rest h hne
    rw [parse_args_succ]
    unfold parse_args_body
    rw [h]
    show (match n with
      | Node.punc "(" => parse_args_loop f [] [] rest
      | _ => Except.error (Err.nameError "InvalidSyntaxException"))
        = Except.error (Err.nameError "InvalidSyntaxException")
    cases n with
    | var v => rfl
    | arith op => rfl
    | func nm fargs => rfl
    | punc s =>
      split
      · exfalso; apply hne; simp_all
      · rfl
  · intro g gs f rest hg hgs
    rw [show argTokCount (g :: gs) + (f + 3) = (argTokCount (g :: gs) + (f + 2)) + 1
      by omega]
    rw [parse_args_succ]
    unfold parse_args_body
    rw [show argTokCount (g :: gs) + (f + 2) = (argTokCount (g :: gs) + (f + 1)) + 1
      by omega]
    rw [parse_node_open _ (argBody (g :: gs) rest)]
    show parse_args_loop ((argTokCount (g :: gs) + (f + 1)) + 1) [] []
        (argBody (g :: gs) rest) = _
    rw [show (argTokCount (g :: gs) + (f + 1)) + 1 = argTokCount (g :: gs) + ((f + 1) + 1)
      by omega]
    rw [parse_args_loop_groups gs g (f + 1) [] [] rest hg hgs]
    simp

/-- Witness for C6 (amended): a non-`(` first node fails through the
undefined exception name, and `min`-style two-argument token lists split on
the comma. -/
theorem parse_args_routing_witness :
    parse_args 2 ["1"] = .error (.nameError "InvalidSyntaxException") ∧
      parse_args (argTokCount [["1"], ["2"]] + (0 + 3))
          ("(" :: argBody [["1"], ["2"]] []) =
        .ok ([["1"], ["2"]].map (fun h => h.map nodeOf), []) :=
  ⟨parse_args_routing.1 1 ["1"] (.var (.num 1)) [] rfl (fun h => Node.noConfusion h),
    parse_args_routing.2 ["1"] [["2"]] 0 [] (by decide) (by decide)⟩
